import Mathlib

/-!
Verification of `src/modules/s3_fs.py` (module `s3_fs`).

The module defines two operations that copy data from an S3-compatible
object store to the local filesystem by delegating to an injected
client handle (`fs_obj`, an `s3fs.S3FileSystem`):

* `import_bucket_from_ssp_cloud(fs_obj, source_bucket_name,
  destination_folder, recursive=True)` calls
  `fs_obj.get(source_bucket_name, destination_folder, recursive=recursive)`
  inside a `try` block, prints a success line, and catches only
  `PermissionError` (printing a warning).
* `import_file_from_ssp_cloud(fs_obj, source_file_name,
  destination_file_path)` calls
  `fs_obj.get(source_file_name, destination_file_path)` inside a `try`
  block, prints a success line, and catches `PermissionError` and
  `FileNotFoundError` (each printing its own warning).

The embedding models the handle's `get` as an abstract function from the
call's arguments to an outcome (success with fetched content, or a raised
exception), and each operation as a pure function returning the list of
`get` invocations it made, the console lines it printed, the resulting
destination content, and whether an exception escaped.
-/

/-- Exception kinds the handle's `get` may raise.  `permissionError` and
`fileNotFoundError` are the two kinds the Python code names in `except`
clauses; `other` stands for any further exception class (network error,
malformed path, ...). -/
inductive Exn where
  | permissionError : Exn
  | fileNotFoundError : Exn
  | other : String → Exn
deriving DecidableEq

/-- Outcome of one call to the handle's `get`: either the fetch succeeds
and writes `content` to the destination, or it raises exception `e`. -/
inductive FetchOutcome where
  | success : String → FetchOutcome
  | raises : Exn → FetchOutcome
deriving DecidableEq

/-- The injected client handle (`fs_obj : s3fs.S3FileSystem` in the
source).  Its `get` method is abstract: a function of the source path,
the destination path, and the `recursive` keyword argument — `none` when
the caller does not pass it, `some b` when it passes `recursive=b`. -/
structure S3FileSystem where
  get : String → String → Option Bool → FetchOutcome

/-- One recorded invocation of the handle's `get`: source argument,
destination argument, and the `recursive` keyword argument if passed. -/
def GetCall : Type := String × String × Option Bool

instance : DecidableEq GetCall := by
  unfold GetCall
  infer_instance

/-- Observable result of running one operation: the `get` calls it made
in order, the console lines it printed in order, the destination content
after the call (`none` when nothing was ever written there), and the
operation's boundary behaviour — `Except.ok ()` when the Python function
returns normally (it always returns `None`), `Except.error e` when
exception `e` escapes it. -/
structure OpResult where
  calls : List GetCall
  output : List String
  dest : Option String
  result : Except Exn Unit

/-- The success line of `import_bucket_from_ssp_cloud`:
`f"The bucket {source_bucket_name} has been downloaded to {destination_folder}"`. -/
def bucket_success_msg (source_bucket_name destination_folder : String) : String :=
  "The bucket " ++ source_bucket_name ++ " has been downloaded to " ++ destination_folder

/-- The success line of `import_file_from_ssp_cloud`:
`f"The file {source_file_name} has been downloaded to {destination_file_path}"`. -/
def file_success_msg (source_file_name destination_file_path : String) : String :=
  "The file " ++ source_file_name ++ " has been downloaded to " ++ destination_file_path

/-- The `PermissionError` warning printed by both operations (the Python
source splits the literal in two adjacent pieces which concatenate):
`f"You tried to import {source} but you do not have the right permission to do so !"`. -/
def permission_msg (source : String) : String :=
  "You tried to import " ++ source ++
    " but you do not have the right permission to do so !"

/-- The `FileNotFoundError` warning printed by `import_file_from_ssp_cloud`:
`f"The file {source_file_name} does not exist"`. -/
def file_not_found_msg (source_file_name : String) : String :=
  "The file " ++ source_file_name ++ " does not exist"

/-- The `try`/`except PermissionError` body of `import_bucket_from_ssp_cloud`,
as a function of the outcome of the single `get` call.  `dest0` is the
destination content before the call. -/
def bucket_step (source_bucket_name destination_folder : String) (dest0 : Option String)
    (recursive : Bool) : FetchOutcome → OpResult
  | FetchOutcome.success c =>
      { calls := [(source_bucket_name, destination_folder, some recursive)]
        output := [bucket_success_msg source_bucket_name destination_folder]
        dest := some c
        result := Except.ok () }
  | FetchOutcome.raises Exn.permissionError =>
      { calls := [(source_bucket_name, destination_folder, some recursive)]
        output := [permission_msg source_bucket_name]
        dest := dest0
        result := Except.ok () }
  | FetchOutcome.raises e =>
      { calls := [(source_bucket_name, destination_folder, some recursive)]
        output := []
        dest := dest0
        result := Except.error e }

/-- `import_bucket_from_ssp_cloud(fs_obj, source_bucket_name,
destination_folder, recursive=True)`: one `get` call with the
`recursive` keyword, success print, `except PermissionError` print. -/
def import_bucket_from_ssp_cloud (fs_obj : S3FileSystem)
    (source_bucket_name destination_folder : String) (dest0 : Option String)
    (recursive : Bool := true) : OpResult :=
  bucket_step source_bucket_name destination_folder dest0 recursive
    (fs_obj.get source_bucket_name destination_folder (some recursive))

/-- The `try`/`except PermissionError`/`except FileNotFoundError` body of
`import_file_from_ssp_cloud`, as a function of the outcome of the single
`get` call.  `dest0` is the destination content before the call. -/
def file_step (source_file_name destination_file_path : String)
    (dest0 : Option String) : FetchOutcome → OpResult
  | FetchOutcome.success c =>
      { calls := [(source_file_name, destination_file_path, none)]
        output := [file_success_msg source_file_name destination_file_path]
        dest := some c
        result := Except.ok () }
  | FetchOutcome.raises Exn.permissionError =>
      { calls := [(source_file_name, destination_file_path, none)]
        output := [permission_msg source_file_name]
        dest := dest0
        result := Except.ok () }
  | FetchOutcome.raises Exn.fileNotFoundError =>
      { calls := [(source_file_name, destination_file_path, none)]
        output := [file_not_found_msg source_file_name]
        dest := dest0
        result := Except.ok () }
  | FetchOutcome.raises e =>
      { calls := [(source_file_name, destination_file_path, none)]
        output := []
        dest := dest0
        result := Except.error e }

/-- `import_file_from_ssp_cloud(fs_obj, source_file_name,
destination_file_path)`: one `get` call without the `recursive` keyword,
success print, `except PermissionError` and `except FileNotFoundError`
prints. -/
def import_file_from_ssp_cloud (fs_obj : S3FileSystem)
    (source_file_name destination_file_path : String)
    (dest0 : Option String) : OpResult :=
  file_step source_file_name destination_file_path dest0
    (fs_obj.get source_file_name destination_file_path none)

/-- A handle whose `get` always succeeds, fetching the content `payload`. -/
def okFS : S3FileSystem :=
  { get := fun _ _ _ => FetchOutcome.success "payload" }

/-- A handle whose `get` always raises `PermissionError`. -/
def permFS : S3FileSystem :=
  { get := fun _ _ _ => FetchOutcome.raises Exn.permissionError }

/-- A handle whose `get` always raises `FileNotFoundError`. -/
def notFoundFS : S3FileSystem :=
  { get := fun _ _ _ => FetchOutcome.raises Exn.fileNotFoundError }

/-- A handle whose `get` always raises an exception of some other class. -/
def netErrFS : S3FileSystem :=
  { get := fun _ _ _ => FetchOutcome.raises (Exn.other "network") }

/-- The two warning lines of `import_file_from_ssp_cloud` differ for every
source: their lengths differ by a constant. -/
theorem permission_msg_ne_not_found_msg (s : String) :
    permission_msg s ≠ file_not_found_msg s := by
  intro h
  have h2 := congrArg String.length h
  simp only [permission_msg, file_not_found_msg, String.length_append] at h2
  have l1 : ("You tried to import " : String).length = 20 := rfl
  have l2 :
      (" but you do not have the right permission to do so !" : String).length = 52 := rfl
  have l3 : ("The file " : String).length = 9 := rfl
  have l4 : (" does not exist" : String).length = 15 := rfl
  rw [l1, l2, l3, l4] at h2
  omega

/-- C1: for every handle, source and destination, when the handle's `get`
raises `PermissionError` during `import_file_from_ssp_cloud` the operation
returns normally and prints exactly one permission warning naming the
source; when it raises `FileNotFoundError` the operation returns normally
and prints exactly one not-found warning naming the source; the two
warnings are distinct, and in neither case does an exception or error
value cross the operation boundary. -/
theorem import_file_catches_permission_and_not_found (fs : S3FileSystem)
    (src dst : String) (d0 : Option String) :
    (fs.get src dst none = FetchOutcome.raises Exn.permissionError →
      (import_file_from_ssp_cloud fs src dst d0).result = Except.ok () ∧
      (import_file_from_ssp_cloud fs src dst d0).output = [permission_msg src]) ∧
    (fs.get src dst none = FetchOutcome.raises Exn.fileNotFoundError →
      (import_file_from_ssp_cloud fs src dst d0).result = Except.ok () ∧
      (import_file_from_ssp_cloud fs src dst d0).output = [file_not_found_msg src]) ∧
    permission_msg src ≠ file_not_found_msg src := by
  refine ⟨fun h => ?_, fun h => ?_, permission_msg_ne_not_found_msg src⟩
  · simp [import_file_from_ssp_cloud, h, file_step]
  · simp [import_file_from_ssp_cloud, h, file_step]

/-- Witness for C1 at concrete handles and paths. -/
theorem import_file_catches_permission_and_not_found_witness :
    ((import_file_from_ssp_cloud permFS "bucket/readme.txt" "./readme.txt" none).result =
        Except.ok () ∧
      (import_file_from_ssp_cloud permFS "bucket/readme.txt" "./readme.txt" none).output =
        [permission_msg "bucket/readme.txt"]) ∧
    ((import_file_from_ssp_cloud notFoundFS "bucket/readme.txt" "./readme.txt" none).result =
        Except.ok () ∧
      (import_file_from_ssp_cloud notFoundFS "bucket/readme.txt" "./readme.txt" none).output =
        [file_not_found_msg "bucket/readme.txt"]) ∧
    permission_msg "bucket/readme.txt" ≠ file_not_found_msg "bucket/readme.txt" :=
  ⟨(import_file_catches_permission_and_not_found permFS "bucket/readme.txt"
      "./readme.txt" none).1 rfl,
    (import_file_catches_permission_and_not_found notFoundFS "bucket/readme.txt"
      "./readme.txt" none).2.1 rfl,
    (import_file_catches_permission_and_not_found permFS "bucket/readme.txt"
      "./readme.txt" none).2.2⟩

/-- C2: for every handle, bucket source and destination, when the handle's
`get` raises `FileNotFoundError` during `import_bucket_from_ssp_cloud`,
the exception is not caught and propagates unmodified (no output is
printed), asymmetrically with `import_file_from_ssp_cloud`, which catches
`FileNotFoundError` and returns normally. -/
theorem import_bucket_not_found_propagates (fs : S3FileSystem) (src dst : String)
    (d0 : Option String) (recursive : Bool)
    (hb : fs.get src dst (some recursive) = FetchOutcome.raises Exn.fileNotFoundError)
    (hf : fs.get src dst none = FetchOutcome.raises Exn.fileNotFoundError) :
    (import_bucket_from_ssp_cloud fs src dst d0 recursive).result =
      Except.error Exn.fileNotFoundError ∧
    (import_bucket_from_ssp_cloud fs src dst d0 recursive).output = [] ∧
    (import_file_from_ssp_cloud fs src dst d0).result = Except.ok () := by
  refine ⟨?_, ?_, ?_⟩ <;>
    simp [import_bucket_from_ssp_cloud, import_file_from_ssp_cloud, hb, hf,
      bucket_step, file_step]

/-- Witness for C2 at a concrete handle that raises `FileNotFoundError`. -/
theorem import_bucket_not_found_propagates_witness :
    (import_bucket_from_ssp_cloud notFoundFS "bucket/data" "./data" none true).result =
      Except.error Exn.fileNotFoundError ∧
    (import_bucket_from_ssp_cloud notFoundFS "bucket/data" "./data" none true).output = [] ∧
    (import_file_from_ssp_cloud notFoundFS "bucket/data" "./data" none).result =
      Except.ok () :=
  import_bucket_not_found_propagates notFoundFS "bucket/data" "./data" none true rfl rfl

/-- C3: for every handle, bucket source and destination, when the handle's
`get` raises `PermissionError` during `import_bucket_from_ssp_cloud`, the
operation catches it, prints exactly one warning naming the bucket, and
returns normally without propagating any failure. -/
theorem import_bucket_catches_permission (fs : S3FileSystem) (src dst : String)
    (d0 : Option String) (recursive : Bool)
    (h : fs.get src dst (some recursive) = FetchOutcome.raises Exn.permissionError) :
    (import_bucket_from_ssp_cloud fs src dst d0 recursive).result = Except.ok () ∧
    (import_bucket_from_ssp_cloud fs src dst d0 recursive).output =
      [permission_msg src] := by
  constructor <;> simp [import_bucket_from_ssp_cloud, h, bucket_step]

/-- Witness for C3 at a concrete handle that raises `PermissionError`. -/
theorem import_bucket_catches_permission_witness :
    (import_bucket_from_ssp_cloud permFS "bucket/data" "./data" none true).result =
      Except.ok () ∧
    (import_bucket_from_ssp_cloud permFS "bucket/data" "./data" none true).output =
      [permission_msg "bucket/data"] :=
  import_bucket_catches_permission permFS "bucket/data" "./data" none true rfl

/-- C4: for both operations, any exception raised by the handle's `get`
other than `PermissionError` and `FileNotFoundError` (for example a
network error) is not caught and propagates to the caller. -/
theorem other_exceptions_propagate (fs : S3FileSystem) (src dst : String)
    (d0 : Option String) (recursive : Bool) (e : Exn)
    (hp : e ≠ Exn.permissionError) (hn : e ≠ Exn.fileNotFoundError) :
    (fs.get src dst (some recursive) = FetchOutcome.raises e →
      (import_bucket_from_ssp_cloud fs src dst d0 recursive).result = Except.error e) ∧
    (fs.get src dst none = FetchOutcome.raises e →
      (import_file_from_ssp_cloud fs src dst d0).result = Except.error e) := by
  cases e with
  | permissionError => exact absurd rfl hp
  | fileNotFoundError => exact absurd rfl hn
  | other s =>
    refine ⟨fun h => ?_, fun h => ?_⟩
    · simp [import_bucket_from_ssp_cloud, h, bucket_step]
    · simp [import_file_from_ssp_cloud, h, file_step]

/-- Witness for C4 at a concrete handle that raises a network error. -/
theorem other_exceptions_propagate_witness :
    Exn.other "network" ≠ Exn.permissionError ∧
    Exn.other "network" ≠ Exn.fileNotFoundError ∧
    (import_bucket_from_ssp_cloud netErrFS "b" "./d" none true).result =
      Except.error (Exn.other "network") ∧
    (import_file_from_ssp_cloud netErrFS "b" "./d" none).result =
      Except.error (Exn.other "network") :=
  ⟨by decide, by decide,
    (other_exceptions_propagate netErrFS "b" "./d" none true (Exn.other "network")
      (by decide) (by decide)).1 rfl,
    (other_exceptions_propagate netErrFS "b" "./d" none true (Exn.other "network")
      (by decide) (by decide)).2 rfl⟩

/-- C5: for every handle, source and destination on which the handle's
`get` succeeds, each operation prints exactly one success message of the
exact form `The bucket {X} has been downloaded to {Y}` for
`import_bucket_from_ssp_cloud` and `The file {X} has been downloaded to
{Y}` for `import_file_from_ssp_cloud`, naming that exact source and
destination. -/
theorem success_message_exact (fs : S3FileSystem) (src dst : String)
    (d0 : Option String) (recursive : Bool) (c : String) :
    (fs.get src dst (some recursive) = FetchOutcome.success c →
      (import_bucket_from_ssp_cloud fs src dst d0 recursive).output =
        ["The bucket " ++ src ++ " has been downloaded to " ++ dst]) ∧
    (fs.get src dst none = FetchOutcome.success c →
      (import_file_from_ssp_cloud fs src dst d0).output =
        ["The file " ++ src ++ " has been downloaded to " ++ dst]) := by
  refine ⟨fun h => ?_, fun h => ?_⟩
  · simp [import_bucket_from_ssp_cloud, h, bucket_step, bucket_success_msg]
  · simp [import_file_from_ssp_cloud, h, file_step, file_success_msg]

/-- Witness for C5 at a concrete handle whose `get` succeeds. -/
theorem success_message_exact_witness :
    (import_bucket_from_ssp_cloud okFS "bucket/data" "./data" none true).output =
      ["The bucket " ++ "bucket/data" ++ " has been downloaded to " ++ "./data"] ∧
    (import_file_from_ssp_cloud okFS "bucket/data" "./data" none).output =
      ["The file " ++ "bucket/data" ++ " has been downloaded to " ++ "./data"] :=
  ⟨(success_message_exact okFS "bucket/data" "./data" none true "payload").1 rfl,
    (success_message_exact okFS "bucket/data" "./data" none true "payload").2 rfl⟩

/-- C6: both operations return normally with no value (`None` in Python,
modelled as `Except.ok ()`) in every outcome in which no exception
escapes: success, caught `PermissionError`, and — for
`import_file_from_ssp_cloud` — caught `FileNotFoundError`; so the caller
cannot programmatically distinguish success from a caught failure. -/
theorem no_return_value (fs : S3FileSystem) (src dst : String)
    (d0 : Option String) (recursive : Bool) (c : String) :
    (fs.get src dst (some recursive) = FetchOutcome.success c →
      (import_bucket_from_ssp_cloud fs src dst d0 recursive).result = Except.ok ()) ∧
    (fs.get src dst (some recursive) = FetchOutcome.raises Exn.permissionError →
      (import_bucket_from_ssp_cloud fs src dst d0 recursive).result = Except.ok ()) ∧
    (fs.get src dst none = FetchOutcome.success c →
      (import_file_from_ssp_cloud fs src dst d0).result = Except.ok ()) ∧
    (fs.get src dst none = FetchOutcome.raises Exn.permissionError →
      (import_file_from_ssp_cloud fs src dst d0).result = Except.ok ()) ∧
    (fs.get src dst none = FetchOutcome.raises Exn.fileNotFoundError →
      (import_file_from_ssp_cloud fs src dst d0).result = Except.ok ()) := by
  refine ⟨fun h => ?_, fun h => ?_, fun h => ?_, fun h => ?_, fun h => ?_⟩ <;>
    simp [import_bucket_from_ssp_cloud, import_file_from_ssp_cloud, h,
      bucket_step, file_step]

/-- Witness for C6 at concrete handles covering all five outcomes. -/
theorem no_return_value_witness :
    (import_bucket_from_ssp_cloud okFS "b" "./d" none true).result = Except.ok () ∧
    (import_bucket_from_ssp_cloud permFS "b" "./d" none true).result = Except.ok () ∧
    (import_file_from_ssp_cloud okFS "b" "./d" none).result = Except.ok () ∧
    (import_file_from_ssp_cloud permFS "b" "./d" none).result = Except.ok () ∧
    (import_file_from_ssp_cloud notFoundFS "b" "./d" none).result = Except.ok () :=
  ⟨(no_return_value okFS "b" "./d" none true "payload").1 rfl,
    (no_return_value permFS "b" "./d" none true "payload").2.1 rfl,
    (no_return_value okFS "b" "./d" none true "payload").2.2.1 rfl,
    (no_return_value permFS "b" "./d" none true "payload").2.2.2.1 rfl,
    (no_return_value notFoundFS "b" "./d" none true "payload").2.2.2.2 rfl⟩

/-- C7: `import_bucket_from_ssp_cloud` forwards its `recursive` flag
unchanged to the handle's `get` on every call (whatever the outcome), and
the flag defaults to `true` when the caller omits it. -/
theorem recursive_flag_forwarded (fs : S3FileSystem) (src dst : String)
    (d0 : Option String) (recursive : Bool) :
    (import_bucket_from_ssp_cloud fs src dst d0 recursive).calls =
      [(src, dst, some recursive)] ∧
    import_bucket_from_ssp_cloud fs src dst d0 =
      import_bucket_from_ssp_cloud fs src dst d0 true := by
  constructor
  · cases hg : fs.get src dst (some recursive) with
    | success c => simp [import_bucket_from_ssp_cloud, hg, bucket_step, GetCall]
    | raises e =>
      cases e <;> simp [import_bucket_from_ssp_cloud, hg, bucket_step, GetCall]
  · rfl

/-- C8: for every input on which the handle's `get` raises
`PermissionError`, the operation leaves the destination unchanged on the
caught-error path, for both operations. -/
theorem dest_unchanged_on_permission (fs : S3FileSystem) (src dst : String)
    (d0 : Option String) (recursive : Bool) :
    (fs.get src dst (some recursive) = FetchOutcome.raises Exn.permissionError →
      (import_bucket_from_ssp_cloud fs src dst d0 recursive).dest = d0) ∧
    (fs.get src dst none = FetchOutcome.raises Exn.permissionError →
      (import_file_from_ssp_cloud fs src dst d0).dest = d0) := by
  refine ⟨fun h => ?_, fun h => ?_⟩
  · simp [import_bucket_from_ssp_cloud, h, bucket_step]
  · simp [import_file_from_ssp_cloud, h, file_step]

/-- Witness for C8 at a concrete handle that raises `PermissionError`,
starting from an empty destination. -/
theorem dest_unchanged_on_permission_witness :
    (import_bucket_from_ssp_cloud permFS "bucket/data" "./data" none true).dest =
      none ∧
    (import_file_from_ssp_cloud permFS "bucket/data" "./data" none).dest = none :=
  ⟨(dest_unchanged_on_permission permFS "bucket/data" "./data" none true).1 rfl,
    (dest_unchanged_on_permission permFS "bucket/data" "./data" none true).2 rfl⟩

/-- C9: idempotence of `import_file_from_ssp_cloud` — running it a second
time with the same inputs, the second call starting from the destination
state left by the first and the handle fetching the same content, leaves
the same destination content as the single first call and prints two
identical success messages. -/
theorem import_file_idempotent (fs : S3FileSystem) (src dst : String)
    (d0 : Option String) (c : String)
    (h : fs.get src dst none = FetchOutcome.success c) :
    (import_file_from_ssp_cloud fs src dst
        (import_file_from_ssp_cloud fs src dst d0).dest).dest =
      (import_file_from_ssp_cloud fs src dst d0).dest ∧
    (import_file_from_ssp_cloud fs src dst d0).output ++
        (import_file_from_ssp_cloud fs src dst
          (import_file_from_ssp_cloud fs src dst d0).dest).output =
      [file_success_msg src dst, file_success_msg src dst] := by
  constructor <;> simp [import_file_from_ssp_cloud, h, file_step]

/-- Witness for C9 at a concrete handle whose `get` succeeds. -/
theorem import_file_idempotent_witness :
    (import_file_from_ssp_cloud okFS "bucket/readme.txt" "./readme.txt"
        (import_file_from_ssp_cloud okFS "bucket/readme.txt" "./readme.txt" none).dest).dest =
      (import_file_from_ssp_cloud okFS "bucket/readme.txt" "./readme.txt" none).dest ∧
    (import_file_from_ssp_cloud okFS "bucket/readme.txt" "./readme.txt" none).output ++
        (import_file_from_ssp_cloud okFS "bucket/readme.txt" "./readme.txt"
          (import_file_from_ssp_cloud okFS "bucket/readme.txt" "./readme.txt" none).dest).output =
      [file_success_msg "bucket/readme.txt" "./readme.txt",
        file_success_msg "bucket/readme.txt" "./readme.txt"] :=
  import_file_idempotent okFS "bucket/readme.txt" "./readme.txt" none "payload" rfl

/-- C10: each invocation of either operation calls the handle's `get`
exactly once whatever the outcome, and `import_file_from_ssp_cloud`
passes only the source and destination — never a `recursive` flag —
while `import_bucket_from_ssp_cloud` always passes one. -/
theorem get_called_exactly_once (fs : S3FileSystem) (src dst : String)
    (d0 : Option String) (recursive : Bool) :
    (import_bucket_from_ssp_cloud fs src dst d0 recursive).calls.length = 1 ∧
    (import_bucket_from_ssp_cloud fs src dst d0 recursive).calls =
      [(src, dst, some recursive)] ∧
    (import_file_from_ssp_cloud fs src dst d0).calls.length = 1 ∧
    (import_file_from_ssp_cloud fs src dst d0).calls =
      [(src, dst, (none : Option Bool))] := by
  have hb : (import_bucket_from_ssp_cloud fs src dst d0 recursive).calls =
      [(src, dst, some recursive)] := by
    cases hg : fs.get src dst (some recursive) with
    | success c => simp [import_bucket_from_ssp_cloud, hg, bucket_step, GetCall]
    | raises e =>
      cases e <;> simp [import_bucket_from_ssp_cloud, hg, bucket_step, GetCall]
  have hf : (import_file_from_ssp_cloud fs src dst d0).calls =
      [(src, dst, (none : Option Bool))] := by
    cases hg : fs.get src dst none with
    | success c => simp [import_file_from_ssp_cloud, hg, file_step, GetCall]
    | raises e =>
      cases e <;> simp [import_file_from_ssp_cloud, hg, file_step, GetCall]
  exact ⟨by rw [hb]; rfl, hb, by rw [hf]; rfl, hf⟩
